import Mathlib

/-!
Verification of the chaos-duck experiment execution engine.

Shallow embedding of the safety-critical core of the repository:
the LIFO rollback manager (`src/backend/safety/rollback.py`), the
blast-radius guardrail (`src/backend/safety/guardrails.py`), the
health-check loop (`src/backend/safety/health_check.py`), the
Kubernetes chaos engine (`src/backend/engines/k8s_engine.py`), the
`SafetyConfig` pydantic model (`src/backend/models/experiment.py`),
and the HTTP surface (`src/backend/routers/chaos.py`,
`src/backend/main.py`).

Python floats are idealised as rationals (ℚ); awaitable compensate
closures are embedded as the outcome they produce when invoked
(`Except String String`); the mutable per-process state (the two
emergency-stop events, the rollback stacks, the cluster) is threaded
explicitly.
-/

namespace ChaosDuck

/-! ## Rollback manager (src/backend/safety/rollback.py) -/

instance {α β : Type} [DecidableEq α] [DecidableEq β] : DecidableEq (Except α β) := fun a b =>
  match a, b with
  | .ok x, .ok y =>
      if h : x = y then isTrue (congrArg Except.ok h)
      else isFalse (fun he => h (Except.ok.inj he))
  | .error x, .error y =>
      if h : x = y then isTrue (congrArg Except.error h)
      else isFalse (fun he => h (Except.error.inj he))
  | .ok _, .error _ => isFalse (fun he => Except.noConfusion he)
  | .error _, .ok _ => isFalse (fun he => Except.noConfusion he)

/-- One entry of a per-experiment rollback stack: the human-readable
description passed to `push` and the outcome the compensate closure
produces when it is awaited (`.ok result` if it returns, `.error msg`
if it raises). -/
structure RollbackEntry where
  description : String
  comp : Except String String
deriving Repr, DecidableEq, Inhabited

/-- One element of the list returned by `RollbackManager.rollback`:
either a success dict with the result, or a failed dict with the
stringified exception. -/
inductive ActionResult where
  | success (description result : String)
  | failed (description error : String)
deriving Repr, DecidableEq, Inhabited

/-- The `_stacks` defaultdict of `RollbackManager`: reads of a missing
key yield the empty list. -/
def RollbackStacks := String → List RollbackEntry

/-- Fresh manager: every stack is empty. -/
def RollbackStacks.empty : RollbackStacks := fun _ => []

/-- `RollbackManager.push`: append the entry to the experiment's stack. -/
def RollbackStacks.push (m : RollbackStacks) (experiment_id : String)
    (e : RollbackEntry) : RollbackStacks :=
  fun k => if k = experiment_id then m experiment_id ++ [e] else m k

/-- `RollbackManager.get_stack_size`. -/
def RollbackStacks.get_stack_size (m : RollbackStacks) (experiment_id : String) : ℕ :=
  (m experiment_id).length

/-- The guarded invocation of one compensate closure inside the
`rollback` loop: a raise is caught and recorded as a failed entry. -/
def runCompensate (e : RollbackEntry) : ActionResult :=
  match e.comp with
  | .ok r => .success e.description r
  | .error msg => .failed e.description msg

/-- The `for description, rollback_fn in reversed(stack)` loop of
`RollbackManager.rollback`, accumulating into `results`. -/
def rollbackLoop : List RollbackEntry → List ActionResult → List ActionResult
  | [], results => results
  | e :: rest, results => rollbackLoop rest (results ++ [runCompensate e])

/-- `RollbackManager.rollback`: pop the experiment's stack (subsequent
reads of the key yield `[]`), then run every compensate in reverse push
order, collecting one result per entry. Returns the result list and the
manager state after the pop. -/
def RollbackStacks.rollback (m : RollbackStacks) (experiment_id : String) :
    List ActionResult × RollbackStacks :=
  let stack := m experiment_id
  let m' : RollbackStacks := fun k => if k = experiment_id then [] else m k
  (rollbackLoop stack.reverse [], m')

/-- Test harness: push the entries `ps` in order onto a fresh manager. -/
def pushSeq (experiment_id : String) (ps : List RollbackEntry) : RollbackStacks :=
  ps.foldl (fun acc e => RollbackStacks.push acc experiment_id e) RollbackStacks.empty

/-! ## Blast-radius guardrail (src/backend/safety/guardrails.py) -/

/-- `validate_blast_radius(affected_count, total_count, max_ratio)`:
true when the namespace is empty, false when the affected fraction
strictly exceeds the allowed maximum, true otherwise. -/
def validate_blast_radius (affected_count total_count : ℕ) (max_blast_radius : ℚ) : Bool :=
  if total_count = 0 then true
  else if (affected_count : ℚ) / (total_count : ℚ) > max_blast_radius then false
  else true

/-! ## SafetyConfig (src/backend/models/experiment.py) -/

/-- A validated `SafetyConfig` pydantic model. -/
structure SafetyConfig where
  timeout_seconds : ℤ
  require_confirmation : Bool
  max_blast_radius : ℚ
  dry_run : Bool
  namespace_pattern : Option String
  health_check_interval : ℤ
  health_check_failure_threshold : ℤ
deriving Repr, DecidableEq, Inhabited

/-- Pydantic validation of `SafetyConfig`: each constrained field
carries `ge`/`le` bounds; an out-of-range value makes the whole model
raise `ValidationError` (embedded as `none`). No clamping occurs. -/
def SafetyConfig.validate (timeout_seconds : ℤ) (require_confirmation : Bool)
    (max_blast_radius : ℚ) (dry_run : Bool) (namespace_pattern : Option String)
    (health_check_interval : ℤ) (health_check_failure_threshold : ℤ) :
    Option SafetyConfig :=
  if 1 ≤ timeout_seconds ∧ timeout_seconds ≤ 120 ∧
      0 ≤ max_blast_radius ∧ max_blast_radius ≤ 1 ∧
      1 ≤ health_check_interval ∧ health_check_interval ≤ 60 ∧
      1 ≤ health_check_failure_threshold ∧ health_check_failure_threshold ≤ 10 then
    some { timeout_seconds := timeout_seconds,
           require_confirmation := require_confirmation,
           max_blast_radius := max_blast_radius,
           dry_run := dry_run,
           namespace_pattern := namespace_pattern,
           health_check_interval := health_check_interval,
           health_check_failure_threshold := health_check_failure_threshold }
  else none

/-! ## Kubernetes engine (src/backend/engines/k8s_engine.py)

The cluster model holds the pods of the target namespace; the K8s
client's label-selector listing (`k=v,k=v`) returns the pods carrying
every selected label. -/

/-- A pod as seen by the engine: name, labels and status phase. -/
structure Pod where
  name : String
  labels : List (String × String)
  phase : String
deriving Repr, DecidableEq, Inhabited

/-- The pods of the target namespace. -/
structure K8sState where
  pods : List Pod
deriving Repr, DecidableEq, Inhabited

/-- Label-selector semantics of `list_namespaced_pod(label_selector=...)`:
a pod matches when it carries every `k=v` pair of the selector (the
empty selector matches every pod). -/
def matchesSelector (selector : List (String × String)) (p : Pod) : Bool :=
  selector.all (fun kv => p.labels.contains kv)

/-- Errors raised by the engine before any mutation: the emergency-stop
`RuntimeError` and the blast-radius `ValueError`. -/
inductive ChaosError where
  | emergencyStopActive
  | blastRadiusExceeded (matched total : ℕ)
deriving Repr, DecidableEq, Inhabited

/-- `str(e)` for the modelled engine errors. -/
def chaosErrorMessage : ChaosError → String
  | .emergencyStopActive => "Emergency stop is active."
  | .blastRadiusExceeded m t =>
      "Blast radius exceeded: " ++ toString m ++ "/" ++ toString t ++ " pods"

/-- The dict returned by `K8sEngine.pod_delete` (the `dry_run` key is
absent in the wet-run dict; it is embedded as `dry_run = false`). -/
structure InjectionResult where
  action : String
  pods : List String
  dry_run : Bool
deriving Repr, DecidableEq, Inhabited

/-- The `v1.delete_namespaced_pod` loop: remove each named pod. -/
def deletePods (s : K8sState) (names : List String) : K8sState :=
  names.foldl (fun st n => { pods := st.pods.filter (fun p => p.name ≠ n) }) s

/-- `K8sEngine.pod_delete(namespace, label_selector, config, dry_run)`.
Checks emergency stop, lists the matching pods and the namespace total,
validates the blast radius, then either returns the dry-run dict with a
null compensate, or deletes the pods and returns the compensate closure
(whose invocation recreates the saved pods). The returned `K8sState` is
the cluster after the call; on an error it is the unchanged input. -/
def K8sEngine.pod_delete (emergencyStopTriggered : Bool) (s : K8sState)
    (selector : List (String × String)) (max_blast_radius : ℚ) (dry_run : Bool) :
    K8sState × Except ChaosError (InjectionResult × Option (Except String String)) :=
  if emergencyStopTriggered then (s, .error .emergencyStopActive)
  else
    let matched := s.pods.filter (matchesSelector selector)
    let pod_names := matched.map Pod.name
    let total_pods := s.pods.length
    if ¬ validate_blast_radius pod_names.length total_pods max_blast_radius then
      (s, .error (.blastRadiusExceeded pod_names.length total_pods))
    else if dry_run then
      (s, .ok ({ action := "pod_delete", pods := pod_names, dry_run := true }, none))
    else
      (deletePods s pod_names,
       .ok ({ action := "pod_delete", pods := pod_names, dry_run := false },
            some (.ok ("recreated " ++ toString pod_names.length))))

/-- The dict returned by `K8sEngine.get_steady_state`. -/
structure SteadyState where
  ns : String
  pods_total : ℕ
  pods_running : ℕ
  pods_healthy_ratio : ℚ
deriving Repr, DecidableEq, Inhabited

/-- `K8sEngine.get_steady_state(namespace)`: counts of all and of
`Running` pods, and `running / total if total > 0 else 1.0`. -/
def K8sEngine.get_steady_state (s : K8sState) (ns : String) : SteadyState :=
  let running := (s.pods.filter (fun p => p.phase == "Running")).length
  let total := s.pods.length
  { ns := ns, pods_total := total, pods_running := running,
    pods_healthy_ratio := if total > 0 then (running : ℚ) / (total : ℚ) else 1 }

/-! ## Health-check loop (src/backend/safety/health_check.py) -/

/-- The outcome of one probe's `safe_execute` (which never raises). -/
structure ProbeResult where
  passed : Bool
  error : Option String
deriving Repr, DecidableEq, Inhabited

/-- The accumulation loop of `HealthCheckLoop._check_probes`:
`all_passed` starts true and is cleared by any failing probe. -/
def checkProbesLoop : List ProbeResult → Bool → Bool
  | [], all_passed => all_passed
  | r :: rest, all_passed => checkProbesLoop rest (if r.passed then all_passed else false)

/-- `HealthCheckLoop._check_probes`: vacuously true without probes,
otherwise the sequential sweep over the probe results of this cycle. -/
def check_probes (cycle : List ProbeResult) : Bool :=
  if cycle.isEmpty then true else checkProbesLoop cycle true

/-- The mutable state of a `HealthCheckLoop`: the consecutive-failure
counter, the stop signal, and whether the failure action (`on_failure`
if supplied, else `rollback_manager.rollback`) has been invoked. -/
structure HCState where
  consecutive_failures : ℕ
  stopped : Bool
  rollback_triggered : Bool
deriving Repr, DecidableEq, Inhabited

/-- State at `start()`. -/
def HealthCheckLoop.init : HCState :=
  { consecutive_failures := 0, stopped := false, rollback_triggered := false }

/-- One iteration of the `while` body of `HealthCheckLoop._run`: reset
the counter on an all-pass sweep, otherwise increment it, and when it
reaches the threshold invoke the failure action and set the stop
signal. -/
def HealthCheckLoop.runCycle (failure_threshold : ℕ) (s : HCState)
    (cycle : List ProbeResult) : HCState :=
  if check_probes cycle then { s with consecutive_failures := 0 }
  else
    let f := s.consecutive_failures + 1
    if failure_threshold ≤ f then
      { consecutive_failures := f, stopped := true, rollback_triggered := true }
    else { s with consecutive_failures := f }

/-- `HealthCheckLoop._run` over a finite schedule of probe sweeps: the
loop exits as soon as the stop signal is set. -/
def HealthCheckLoop.run (failure_threshold : ℕ) : HCState → List (List ProbeResult) → HCState
  | s, [] => s
  | s, c :: cs =>
      if s.stopped then s
      else HealthCheckLoop.run failure_threshold (HealthCheckLoop.runCycle failure_threshold s c) cs

/-- Strict pass/fail alternation of a cycle-outcome sequence: every
adjacent pair differs. -/
def alternatingB : List Bool → Bool
  | [] => true
  | [_] => true
  | a :: b :: rest => (a != b) && alternatingB (b :: rest)

/-! ## Experiment model and HTTP surface
(src/backend/models/experiment.py, src/backend/routers/chaos.py,
src/backend/main.py) -/

inductive ExperimentStatus where
  | pending | running | completed | failed | rolled_back | emergency_stopped
deriving Repr, DecidableEq, Inhabited

inductive ExperimentPhase where
  | steady_state | hypothesis | inject | observe | rollback
deriving Repr, DecidableEq, Inhabited

/-- The slice of `ExperimentConfig` the pod-delete path reads (labels
are embedded as the association list the `k=v,...` selector is built
from). -/
structure ExperimentConfig where
  name : String
  target_namespace : Option String
  target_labels : List (String × String)
  safety : SafetyConfig
deriving Repr, DecidableEq, Inhabited

/-- The persisted `ExperimentRecord` row (the fields the chaos router
touches), with timestamps abstracted to naturals. -/
structure ExperimentRecord where
  id : String
  status : ExperimentStatus
  phase : ExperimentPhase
  started_at : ℕ
  completed_at : Option ℕ
  steady_state : Option SteadyState
  injection_result : Option InjectionResult
  observations : Option SteadyState
  error : Option String
deriving Repr, DecidableEq, Inhabited

/-- The process-wide mutable state: the module-level
`main.emergency_stop_event`, the distinct
`safety.guardrails.emergency_stop_manager` event, the rollback stacks
and the cluster. -/
structure AppState where
  emergency_stop_event : Bool
  manager_event : Bool
  _stacks : RollbackStacks
  cluster : K8sState

/-- Body of the `POST /emergency-stop` response. -/
structure StopResponse where
  status : String
deriving Repr, DecidableEq, Inhabited

/-- `POST /emergency-stop` (src/backend/main.py): sets the module-level
`emergency_stop_event` and returns the confirmation body. It does not
touch `emergency_stop_manager` and drains no rollback stack. -/
def trigger_emergency_stop (st : AppState) : AppState × StopResponse :=
  ({ st with emergency_stop_event := true }, { status := "emergency_stop_triggered" })

/-- Outcome of `POST /api/chaos/experiments`: the 503 guard, the 200
response carrying the persisted record, or the record persisted on the
failure path together with the re-raised error. -/
inductive CreateResponse where
  | http503
  | ok (record : ExperimentRecord)
  | raised (record : ExperimentRecord) (e : ChaosError)
deriving Repr, DecidableEq, Inhabited

/-- `POST /api/chaos/experiments` (`create_experiment` in
src/backend/routers/chaos.py) on the `pod_delete` chaos type.
Returns 503 when `emergency_stop_manager.is_triggered()`; otherwise
persists a running record, captures steady state when a namespace is
configured, dispatches to `K8sEngine.pod_delete`, pushes the returned
compensate (when non-null) onto the rollback stack, captures
observations, and marks the record completed with `completed_at` set.
An engine error puts the record on the failure path (status failed,
error recorded, `completed_at` untouched) and the exiting
`ExperimentContext.__aexit__` drains the experiment's rollback stack. -/
def create_experiment (st : AppState) (config : ExperimentConfig)
    (experiment_id : String) (now : ℕ) : AppState × CreateResponse :=
  if st.manager_event then (st, .http503)
  else
    let rec0 : ExperimentRecord :=
      { id := experiment_id, status := .running, phase := .steady_state,
        started_at := now, completed_at := none, steady_state := none,
        injection_result := none, observations := none, error := none }
    -- ExperimentContext.__aenter__ re-checks the same manager event; it
    -- passes here because the branch above already established it is clear.
    let rec1 := match config.target_namespace with
      | some ns => { rec0 with steady_state := some (K8sEngine.get_steady_state st.cluster ns) }
      | none => rec0
    let rec2 := { rec1 with phase := .inject }
    match K8sEngine.pod_delete st.manager_event st.cluster config.target_labels
        config.safety.max_blast_radius config.safety.dry_run with
    | (cluster', .error e) =>
        let recF := { rec2 with status := .failed, error := some (chaosErrorMessage e) }
        let drained := RollbackStacks.rollback st._stacks experiment_id
        ({ st with cluster := cluster', _stacks := drained.2 }, .raised recF e)
    | (cluster', .ok (injection, comp)) =>
        let stacks1 := match comp with
          | some c =>
              RollbackStacks.push st._stacks experiment_id
                { description := "pod_delete", comp := c }
          | none => st._stacks
        let rec3 := { rec2 with injection_result := some injection, phase := .observe }
        let rec4 := match config.target_namespace with
          | some ns => { rec3 with observations := some (K8sEngine.get_steady_state cluster' ns) }
          | none => rec3
        let rec5 := { rec4 with
          status := .completed,
          phase := .rollback,
          completed_at := some (now + 1) }
        ({ st with cluster := cluster', _stacks := stacks1 }, .ok rec5)

/-- `POST /api/chaos/experiments/id/rollback` (`rollback_experiment` in
src/backend/routers/chaos.py): drains the experiment's stack, sets the
record's status to `rolled_back` and commits. No other record field is
written; in particular `completed_at` is left as it was. -/
def rollback_experiment (st : AppState) (record : ExperimentRecord) :
    AppState × ExperimentRecord × List ActionResult :=
  let drained := RollbackStacks.rollback st._stacks record.id
  ({ st with _stacks := drained.2 }, { record with status := .rolled_back }, drained.1)

/-- The record a `CreateResponse` persisted, if any. -/
def responseRecord : CreateResponse → Option ExperimentRecord
  | .http503 => none
  | .ok r => some r
  | .raised r _ => some r

/-- Whether a `CreateResponse` is the 200 path. -/
def responseIsOk : CreateResponse → Bool
  | .ok _ => true
  | _ => false

/-- The injection result recorded by a `CreateResponse`: `some` exactly
when the actuator was invoked and returned. -/
def responseInjection : CreateResponse → Option InjectionResult
  | .http503 => none
  | .ok r => r.injection_result
  | .raised r _ => r.injection_result

/-! ## Concrete fixtures -/

/-- A compensate that succeeds. -/
def entryA : RollbackEntry := { description := "A", comp := .ok "done-a" }

/-- A compensate that raises. -/
def entryB : RollbackEntry := { description := "B", comp := .error "boom" }

/-- A second succeeding compensate. -/
def entryC : RollbackEntry := { description := "C", comp := .ok "done-c" }

/-- A running nginx pod. -/
def nginxPod (n : String) : Pod :=
  { name := n, labels := [("app", "nginx")], phase := "Running" }

/-- Five nginx pods, all matched by the `app=nginx` selector. -/
def cluster5 : K8sState :=
  ⟨[nginxPod "nginx-1", nginxPod "nginx-2", nginxPod "nginx-3",
    nginxPod "nginx-4", nginxPod "nginx-5"]⟩

/-- The `app=nginx` selector. -/
def selNginx : List (String × String) := [("app", "nginx")]

/-- Namespace without pods. -/
def emptyCluster : K8sState := ⟨[]⟩

/-- A process state with neither emergency-stop event set and empty
rollback stacks. -/
def freshState (c : K8sState) : AppState :=
  { emergency_stop_event := false, manager_event := false,
    _stacks := RollbackStacks.empty, cluster := c }

/-- A pod-delete config against namespace `default` with the `app=nginx`
selector and the given safety sub-record. -/
def confNginx (s : SafetyConfig) : ExperimentConfig :=
  { name := "t", target_namespace := some "default",
    target_labels := selNginx, safety := s }

/-- The default `SafetyConfig` values of the pydantic model. -/
def safetyDefault : SafetyConfig :=
  { timeout_seconds := 30, require_confirmation := false,
    max_blast_radius := 3 / 10, dry_run := false, namespace_pattern := none,
    health_check_interval := 10, health_check_failure_threshold := 3 }

/-! ## Helper lemmas -/

theorem rollbackLoop_eq (l : List RollbackEntry) (acc : List ActionResult) :
    rollbackLoop l acc = acc ++ l.map runCompensate := by
  induction l generalizing acc with
  | nil => simp [rollbackLoop]
  | cons e rest ih => simp [rollbackLoop, ih]

theorem pushSeq_foldl (ps : List RollbackEntry) (experiment_id : String) (m : RollbackStacks) :
    (ps.foldl (fun acc e => RollbackStacks.push acc experiment_id e) m) experiment_id
      = m experiment_id ++ ps := by
  induction ps generalizing m with
  | nil => simp
  | cons e rest ih =>
      rw [List.foldl_cons, ih]
      simp [RollbackStacks.push]

theorem pushSeq_apply (experiment_id : String) (ps : List RollbackEntry) :
    pushSeq experiment_id ps experiment_id = ps := by
  unfold pushSeq
  rw [pushSeq_foldl]
  simp [RollbackStacks.empty]

/-! ## Claims -/

/-- Claim C2: pushing `p1, …, pn` and then draining with `rollback`
invokes the compensates in the order `pn, …, p1` (the result list is
the reverse-push-order image of `runCompensate`), attempts every one
even when some raise (one entry per push), and each entry is either a
success dict with the result or a failed dict with the error. -/
theorem claim_C2 (experiment_id : String) (ps : List RollbackEntry) :
    (RollbackStacks.rollback (pushSeq experiment_id ps) experiment_id).1 =
        ps.reverse.map runCompensate ∧
    (RollbackStacks.rollback (pushSeq experiment_id ps) experiment_id).1.length = ps.length ∧
    ∀ a ∈ (RollbackStacks.rollback (pushSeq experiment_id ps) experiment_id).1,
      (∃ d r, a = ActionResult.success d r) ∨ (∃ d e, a = ActionResult.failed d e) := by
  have hmain : (RollbackStacks.rollback (pushSeq experiment_id ps) experiment_id).1 =
      ps.reverse.map runCompensate := by
    show rollbackLoop (pushSeq experiment_id ps experiment_id).reverse [] = _
    rw [pushSeq_apply, rollbackLoop_eq, List.nil_append]
  refine ⟨hmain, ?_, ?_⟩
  · rw [hmain, List.length_map, List.length_reverse]
  · intro a ha
    rw [hmain] at ha
    obtain ⟨e, _, he⟩ := List.mem_map.mp ha
    unfold runCompensate at he
    cases hc : e.comp with
    | ok r => rw [hc] at he; exact Or.inl ⟨e.description, r, he.symm⟩
    | error msg => rw [hc] at he; exact Or.inr ⟨e.description, msg, he.symm⟩

/-- Witness for C2 at the pushes A (ok), B (raises), C (ok): the drain
reports C, then B failed, then A, in reverse push order. -/
theorem claim_C2_witness :
    (RollbackStacks.rollback (pushSeq "exp-w2" [entryA, entryB, entryC]) "exp-w2").1 =
      [ActionResult.success "C" "done-c", ActionResult.failed "B" "boom",
       ActionResult.success "A" "done-a"] := by
  rw [(claim_C2 "exp-w2" [entryA, entryB, entryC]).1]
  rfl

/-- Claim C5: `validate_blast_radius` accepts exactly when the
namespace is empty or the affected fraction is at most the maximum;
the boundary is inclusive at `max_ratio` and exclusive above. -/
theorem claim_C5 (affected total : ℕ) (max_r : ℚ) (h0 : 0 ≤ max_r) (h1 : max_r ≤ 1) :
    validate_blast_radius affected total max_r = true ↔
      (total = 0 ∨ (affected : ℚ) / (total : ℚ) ≤ max_r) := by
  unfold validate_blast_radius
  by_cases ht : total = 0
  · simp [ht]
  · rw [if_neg ht]
    by_cases hgt : (affected : ℚ) / (total : ℚ) > max_r
    · rw [if_pos hgt]
      constructor
      · intro h; exact absurd h (by simp)
      · intro h
        rcases h with h | h
        · exact absurd h ht
        · exact absurd hgt (not_lt.mpr h)
    · rw [if_neg hgt]
      exact ⟨fun _ => Or.inr (not_lt.mp hgt), fun _ => rfl⟩

/-- Witness for C5 at `affected = 1`, `total = 5`, `max_ratio = 0`. -/
theorem claim_C5_witness :
    (0 : ℚ) ≤ 0 ∧ (0 : ℚ) ≤ 1 ∧
      (validate_blast_radius 1 5 0 = true ↔
        (5 = 0 ∨ ((1 : ℕ) : ℚ) / ((5 : ℕ) : ℚ) ≤ 0)) :=
  ⟨le_refl 0, zero_le_one, claim_C5 1 5 0 (le_refl 0) zero_le_one⟩

/-- Claim C7: `rollback` drains the stack: immediately afterwards the
stack size is zero, and a second `rollback` with no intervening pushes
returns the empty list (the explicit rollback endpoint is safe to
repeat). -/
theorem claim_C7 (m : RollbackStacks) (experiment_id : String) :
    RollbackStacks.get_stack_size (RollbackStacks.rollback m experiment_id).2 experiment_id = 0 ∧
    (RollbackStacks.rollback (RollbackStacks.rollback m experiment_id).2 experiment_id).1 = [] := by
  constructor
  · simp [RollbackStacks.rollback, RollbackStacks.get_stack_size]
  · simp [RollbackStacks.rollback, rollbackLoop]

theorem validate_blast_radius_exceeded (a t : ℕ) (max_r : ℚ) (ht : t ≠ 0)
    (h : max_r < (a : ℚ) / (t : ℚ)) : validate_blast_radius a t max_r = false := by
  unfold validate_blast_radius
  rw [if_neg ht, if_pos h]

theorem pod_delete_blast_exceeded (s : K8sState) (selector : List (String × String))
    (max_r : ℚ) (dry_run : Bool) (ht : s.pods.length ≠ 0)
    (h : max_r < ((s.pods.filter (matchesSelector selector)).length : ℚ) / (s.pods.length : ℚ)) :
    K8sEngine.pod_delete false s selector max_r dry_run =
      (s, .error (.blastRadiusExceeded
        ((s.pods.filter (matchesSelector selector)).map Pod.name).length s.pods.length)) := by
  have hv : validate_blast_radius
      (s.pods.filter (matchesSelector selector)).length
      s.pods.length max_r = false :=
    validate_blast_radius_exceeded _ _ _ ht h
  unfold K8sEngine.pod_delete
  simp [hv]

/-- Claim C4: when the namespace is non-empty and the fraction of pods
matched by the selector strictly exceeds `safety.max_blast_radius`,
`pod_delete` raises the blast-radius error and deletes no pod (the
returned cluster is the unchanged input), in dry and wet mode alike:
the check precedes every delete call. -/
theorem claim_C4 (s : K8sState) (selector : List (String × String))
    (max_r : ℚ) (dry_run : Bool) (htotal : 0 < s.pods.length)
    (hexceed : max_r <
      ((s.pods.filter (matchesSelector selector)).length : ℚ) / (s.pods.length : ℚ)) :
    K8sEngine.pod_delete false s selector max_r dry_run =
      (s, .error (.blastRadiusExceeded
        ((s.pods.filter (matchesSelector selector)).map Pod.name).length s.pods.length)) :=
  pod_delete_blast_exceeded s selector max_r dry_run (Nat.pos_iff_ne_zero.mp htotal) hexceed

/-- Witness for C4: all five of five pods selected against a maximum
ratio of zero. -/
theorem claim_C4_witness :
    0 < cluster5.pods.length ∧
    (0 : ℚ) < ((cluster5.pods.filter (matchesSelector selNginx)).length : ℚ) /
        (cluster5.pods.length : ℚ) ∧
    K8sEngine.pod_delete false cluster5 selNginx 0 false =
      (cluster5, .error (.blastRadiusExceeded
        ((cluster5.pods.filter (matchesSelector selNginx)).map Pod.name).length
        cluster5.pods.length)) :=
  ⟨by decide,
   div_pos (Nat.cast_pos.mpr (by decide)) (Nat.cast_pos.mpr (by decide)),
   claim_C4 cluster5 selNginx 0 false (by decide)
     (div_pos (Nat.cast_pos.mpr (by decide)) (Nat.cast_pos.mpr (by decide)))⟩

theorem alternatingB_cons (a : Bool) (l : List Bool)
    (h : alternatingB (a :: l) = true) :
    alternatingB l = true ∧ l.head? ≠ some a := by
  cases l with
  | nil => exact ⟨rfl, by simp⟩
  | cons b r =>
      unfold alternatingB at h
      rw [Bool.and_eq_true] at h
      refine ⟨h.2, ?_⟩
      simp only [List.head?_cons, ne_eq, Option.some.injEq]
      intro hba
      exact bne_iff_ne.mp h.1 hba.symm

theorem hcRun_alternating_aux (t : ℕ) (ht : 2 ≤ t) :
    ∀ (cs : List (List ProbeResult)) (s : HCState),
      s.stopped = false → s.rollback_triggered = false →
      s.consecutive_failures ≤ 1 →
      alternatingB (cs.map check_probes) = true →
      (s.consecutive_failures = 1 → (cs.map check_probes).head? ≠ some false) →
      (HealthCheckLoop.run t s cs).rollback_triggered = false := by
  intro cs
  induction cs with
  | nil => intro s _ hfired _ _ _; simpa [HealthCheckLoop.run] using hfired
  | cons c cs ih =>
      intro s hstop hfired hle halt hhead
      unfold HealthCheckLoop.run
      rw [hstop]
      simp only [Bool.false_eq_true, if_false]
      have halt' := alternatingB_cons (check_probes c) (cs.map check_probes)
        (by simpa using halt)
      cases hc : check_probes c with
      | true =>
          have hcycle : HealthCheckLoop.runCycle t s c =
              { s with consecutive_failures := 0 } := by
            unfold HealthCheckLoop.runCycle
            rw [hc, if_pos rfl]
          rw [hcycle]
          exact ih _ hstop hfired (by simp) halt'.1 (fun hcf => absurd hcf (by simp))
      | false =>
          have hcf0 : s.consecutive_failures = 0 := by
            have : s.consecutive_failures ≠ 1 := by
              intro h1
              exact hhead h1 (by rw [List.map_cons, hc, List.head?_cons])
            omega
          have hcycle : HealthCheckLoop.runCycle t s c =
              { s with consecutive_failures := 1 } := by
            unfold HealthCheckLoop.runCycle
            rw [hc]
            simp only [Bool.false_eq_true, if_false, hcf0]
            rw [if_neg (by omega)]
          rw [hcycle]
          refine ih _ hstop hfired (by simp) halt'.1 (fun _ => ?_)
          have := halt'.2
          rw [hc] at this
          exact this

/-- Claim C6: an all-pass cycle resets the consecutive-failure counter
to zero, a failing cycle increments it by one, and consequently a
strictly alternating pass/fail schedule never invokes the failure
action (`on_failure` / the default rollback) for any
`failure_threshold ≥ 2`. -/
theorem claim_C6 :
    (∀ t s c, check_probes c = true →
        (HealthCheckLoop.runCycle t s c).consecutive_failures = 0) ∧
    (∀ t s c, check_probes c = false →
        (HealthCheckLoop.runCycle t s c).consecutive_failures =
          s.consecutive_failures + 1) ∧
    (∀ t cs, 2 ≤ t → alternatingB (cs.map check_probes) = true →
        (HealthCheckLoop.run t HealthCheckLoop.init cs).rollback_triggered = false) := by
  refine ⟨?_, ?_, ?_⟩
  · intro t s c hc
    simp [HealthCheckLoop.runCycle, hc]
  · intro t s c hc
    unfold HealthCheckLoop.runCycle
    rw [hc]
    simp only [Bool.false_eq_true, if_false]
    split <;> rfl
  · intro t cs ht halt
    exact hcRun_alternating_aux t ht cs HealthCheckLoop.init rfl rfl (by decide) halt
      (fun h => absurd h (by decide))

/-- A passing probe outcome. -/
def probePass : ProbeResult := { passed := true, error := none }

/-- A failing probe outcome. -/
def probeFail : ProbeResult := { passed := false, error := some "probe failed" }

/-- Witness for C6: a fail/pass/fail/pass schedule against threshold 2
never fires the failure action. -/
theorem claim_C6_witness :
    check_probes [probeFail] = false ∧
    check_probes [probePass] = true ∧
    2 ≤ 2 ∧
    alternatingB ([[probeFail], [probePass], [probeFail], [probePass]].map check_probes) = true ∧
    (HealthCheckLoop.run 2 HealthCheckLoop.init
        [[probeFail], [probePass], [probeFail], [probePass]]).rollback_triggered = false :=
  ⟨by decide, by decide, by decide, by decide,
   claim_C6.2.2 2 [[probeFail], [probePass], [probeFail], [probePass]]
     (by decide) (by decide)⟩

/-- Claim C9 counterexample: pydantic validation does not clamp.
`timeout_seconds = 121` is rejected (`ValidationError`), not clamped
into `[1, 120]`, exactly as asserted by
`tests/test_models.py::test_timeout_rejected_above_max`. -/
theorem claim_C9_counterexample :
    SafetyConfig.validate 121 false 0 false none 10 3 = none := by
  unfold SafetyConfig.validate
  rw [if_neg]
  intro h
  exact absurd h.2.1 (by decide)

/-- Claim C9 (amended): validation rejects out-of-range input instead
of clamping; every `SafetyConfig` it does yield satisfies
`timeout_seconds ∈ [1,120]`, `max_blast_radius ∈ [0,1]` and
`health_check_interval ∈ [1,60]`. -/
theorem claim_C9_amended (timeout_seconds : ℤ) (require_confirmation : Bool)
    (max_blast_radius : ℚ) (dry_run : Bool) (namespace_pattern : Option String)
    (health_check_interval health_check_failure_threshold : ℤ) (c : SafetyConfig)
    (h : SafetyConfig.validate timeout_seconds require_confirmation max_blast_radius
        dry_run namespace_pattern health_check_interval health_check_failure_threshold
      = some c) :
    1 ≤ c.timeout_seconds ∧ c.timeout_seconds ≤ 120 ∧
    0 ≤ c.max_blast_radius ∧ c.max_blast_radius ≤ 1 ∧
    1 ≤ c.health_check_interval ∧ c.health_check_interval ≤ 60 := by
  unfold SafetyConfig.validate at h
  split at h
  · rename_i hcond
    have hc := Option.some.inj h
    subst hc
    exact ⟨hcond.1, hcond.2.1, hcond.2.2.1, hcond.2.2.2.1,
      hcond.2.2.2.2.1, hcond.2.2.2.2.2.1⟩
  · exact absurd h (by simp)

/-- Witness for the amended C9: the in-range input
`(30, false, 0, false, none, 10, 3)` validates and the result is in
bounds. -/
theorem claim_C9_amended_witness :
    SafetyConfig.validate 30 false 0 false none 10 3 =
      some { timeout_seconds := 30, require_confirmation := false,
             max_blast_radius := 0, dry_run := false, namespace_pattern := none,
             health_check_interval := 10, health_check_failure_threshold := 3 } ∧
    (1 : ℤ) ≤ 30 ∧ (30 : ℤ) ≤ 120 ∧ (0 : ℚ) ≤ 0 ∧ (0 : ℚ) ≤ 1 ∧
    (1 : ℤ) ≤ 10 ∧ (10 : ℤ) ≤ 60 := by
  have hval : SafetyConfig.validate 30 false 0 false none 10 3 =
      some { timeout_seconds := 30, require_confirmation := false,
             max_blast_radius := 0, dry_run := false, namespace_pattern := none,
             health_check_interval := 10, health_check_failure_threshold := 3 } := by
    unfold SafetyConfig.validate
    exact if_pos ⟨by decide, by decide, le_refl 0, zero_le_one,
      by decide, by decide, by decide, by decide⟩
  have hb := claim_C9_amended 30 false 0 false none 10 3 _ hval
  exact ⟨hval, hb.1, hb.2.1, hb.2.2.1, hb.2.2.2.1, hb.2.2.2.2.1, hb.2.2.2.2.2⟩

/-- A running pod and a pending pod. -/
def podRun : Pod := { name := "p1", labels := [], phase := "Running" }

/-- A pod that is not running. -/
def podPend : Pod := { name := "p2", labels := [], phase := "Pending" }

/-- Two pods, one of them running. -/
def cluster2 : K8sState := ⟨[podRun, podPend]⟩

/-- Claim C10: `get_steady_state` reports the total and running pod
counts and a healthy fraction of `running / total` for a non-empty
namespace and `1.0` for an empty one — the division is guarded by the
`total > 0` test and never runs on an empty namespace. -/
theorem claim_C10 (s : K8sState) (ns : String) :
    (K8sEngine.get_steady_state s ns).pods_total = s.pods.length ∧
    (K8sEngine.get_steady_state s ns).pods_running =
      (s.pods.filter (fun p => p.phase == "Running")).length ∧
    (0 < s.pods.length →
      SteadyState.pods_healthy_ratio (K8sEngine.get_steady_state s ns) =
        ((s.pods.filter (fun p => p.phase == "Running")).length : ℚ) /
          (s.pods.length : ℚ)) ∧
    (s.pods.length = 0 →
      SteadyState.pods_healthy_ratio (K8sEngine.get_steady_state s ns) = 1) := by
  refine ⟨rfl, rfl, ?_, ?_⟩
  · intro h
    unfold K8sEngine.get_steady_state
    exact if_pos h
  · intro h
    unfold K8sEngine.get_steady_state
    exact if_neg (by omega)

/-- Witness for C10: two pods with one running give a healthy fraction
of one half (expressed as the guarded quotient). -/
theorem claim_C10_witness :
    0 < cluster2.pods.length ∧
    SteadyState.pods_healthy_ratio (K8sEngine.get_steady_state cluster2 "default") =
      ((cluster2.pods.filter (fun p => p.phase == "Running")).length : ℚ) /
        (cluster2.pods.length : ℚ) :=
  ⟨by decide, (claim_C10 cluster2 "default").2.2.1 (by decide)⟩

theorem pod_delete_dry_run_spec (es : Bool) (s : K8sState)
    (selector : List (String × String)) (max_r : ℚ) (s' : K8sState)
    (res : InjectionResult) (comp : Option (Except String String))
    (h : K8sEngine.pod_delete es s selector max_r true = (s', .ok (res, comp))) :
    res.dry_run = true ∧ comp = none ∧ s' = s := by
  unfold K8sEngine.pod_delete at h
  cases es with
  | true =>
      rw [if_pos rfl] at h
      exact absurd (congrArg Prod.snd h) (by simp)
  | false =>
      rw [if_neg (by simp)] at h
      simp only [] at h
      cases hv : validate_blast_radius
          (List.filter (matchesSelector selector) s.pods).length
          s.pods.length max_r with
      | false =>
          rw [if_pos (by simp [hv])] at h
          exact absurd (congrArg Prod.snd h) (by simp)
      | true =>
          rw [if_neg (by simp [hv]), if_pos trivial] at h
          have hs : s = s' := congrArg Prod.fst h
          have hsnd := congrArg Prod.snd h
          simp only [Except.ok.injEq, Prod.mk.injEq] at hsnd
          exact ⟨hsnd.1 ▸ rfl, hsnd.2.symm, hs.symm⟩

/-- Claim C8: in dry-run mode the actuator's successful return carries
`dry_run = true`, a null compensate and an unchanged cluster; on the
router side a dry-run experiment that completes records that injection
result and pushes nothing, leaving the experiment's rollback stack
size at zero. -/
theorem claim_C8 :
    (∀ es s selector max_r s' res comp,
        K8sEngine.pod_delete es s selector max_r true = (s', .ok (res, comp)) →
        res.dry_run = true ∧ comp = none ∧ s' = s) ∧
    (∀ st config experiment_id now st' r,
        config.safety.dry_run = true →
        RollbackStacks.get_stack_size st._stacks experiment_id = 0 →
        create_experiment st config experiment_id now = (st', .ok r) →
        (∃ ir, r.injection_result = some ir ∧ ir.dry_run = true) ∧
        RollbackStacks.get_stack_size st'._stacks experiment_id = 0) := by
  refine ⟨fun es s selector max_r s' res comp h =>
    pod_delete_dry_run_spec es s selector max_r s' res comp h, ?_⟩
  intro st config experiment_id now st' r hdry hsize hcreate
  unfold create_experiment at hcreate
  rw [hdry] at hcreate
  split at hcreate
  · exact absurd (congrArg Prod.snd hcreate) (by simp)
  · split at hcreate <;> split at hcreate
    all_goals first
      | (have hbad := congrArg Prod.snd hcreate
         simp at hbad
         done)
      | (rename_i cluster' injection comp heq
         obtain ⟨hdr, hcomp, _⟩ := pod_delete_dry_run_spec _ _ _ _ _ _ _ heq
         subst hcomp
         have hfst := congrArg Prod.fst hcreate
         have hsnd := congrArg Prod.snd hcreate
         simp only [CreateResponse.ok.injEq] at hsnd
         simp only [] at hfst
         refine ⟨⟨injection, ?_, hdr⟩, ?_⟩
         · rw [← hsnd]
         · rw [← hfst]
           exact hsize)

/-- The default safety sub-record with `dry_run = true`. -/
def safetyDry : SafetyConfig := { safetyDefault with dry_run := true }

/-- A full dry-run experiment against the empty namespace. -/
def dryRun0 : AppState × CreateResponse :=
  create_experiment (freshState emptyCluster) (confNginx safetyDry) "exp-dry1" 0

/-- The record persisted by `dryRun0`. -/
def dryRec : ExperimentRecord := (responseRecord dryRun0.2).getD default

/-- Witness for C8: the concrete dry run completes with a dry-run
injection result and an untouched (empty) rollback stack. -/
theorem claim_C8_witness :
    (confNginx safetyDry).safety.dry_run = true ∧
    RollbackStacks.get_stack_size (freshState emptyCluster)._stacks "exp-dry1" = 0 ∧
    dryRun0 = (dryRun0.1, CreateResponse.ok dryRec) ∧
    (∃ ir, dryRec.injection_result = some ir ∧ ir.dry_run = true) ∧
    RollbackStacks.get_stack_size dryRun0.1._stacks "exp-dry1" = 0 :=
  ⟨rfl, rfl, rfl,
   (claim_C8.2 (freshState emptyCluster) (confNginx safetyDry) "exp-dry1" 0
      dryRun0.1 dryRec rfl rfl rfl).1,
   (claim_C8.2 (freshState emptyCluster) (confNginx safetyDry) "exp-dry1" 0
      dryRun0.1 dryRec rfl rfl rfl).2⟩

theorem create_experiment_error_path (st : AppState) (config : ExperimentConfig)
    (experiment_id : String) (now : ℕ) (cluster' : K8sState) (e : ChaosError)
    (hm : st.manager_event = false)
    (hpd : K8sEngine.pod_delete st.manager_event st.cluster config.target_labels
        config.safety.max_blast_radius config.safety.dry_run = (cluster', .error e)) :
    (create_experiment st config experiment_id now).2 =
      CreateResponse.raised
        { id := experiment_id, status := .failed, phase := .inject, started_at := now,
          completed_at := none,
          steady_state := (match config.target_namespace with
            | some ns => some (K8sEngine.get_steady_state st.cluster ns)
            | none => none),
          injection_result := none, observations := none,
          error := some (chaosErrorMessage e) } e := by
  unfold create_experiment
  rw [hm] at hpd ⊢
  simp only [Bool.false_eq_true, if_false]
  rw [hpd]
  cases config.target_namespace <;> rfl

/-- The pod-delete run that exceeds the blast radius: five of five pods
selected against `max_blast_radius = 0.3`. -/
def failRun : AppState × CreateResponse :=
  create_experiment (freshState cluster5) (confNginx safetyDefault) "exp-c3" 0

/-- The failed record persisted by `failRun`. -/
def failRec : ExperimentRecord := (responseRecord failRun.2).getD default

/-- The record after `POST /api/chaos/experiments/exp-c3/rollback`. -/
def rolledRec : ExperimentRecord := (rollback_experiment failRun.1 failRec).2.1

/-- Claim C3 counterexample: the rollback endpoint applied to a failed
experiment yields a record with status `rolled_back` whose
`completed_at` is still null — the endpoint never writes
`completed_at`. -/
theorem claim_C3_counterexample :
    failRec.status = ExperimentStatus.failed ∧
    failRec.completed_at = none ∧
    rolledRec.status = ExperimentStatus.rolled_back ∧
    rolledRec.completed_at = none := by
  have h1 : (cluster5.pods.filter (matchesSelector selNginx)).length = 5 := rfl
  have h2 : cluster5.pods.length = 5 := rfl
  have hdiv : (3 / 10 : ℚ) <
      ((cluster5.pods.filter (matchesSelector selNginx)).length : ℚ) /
        (cluster5.pods.length : ℚ) := by
    rw [h1, h2]
    norm_num
  have hpd := pod_delete_blast_exceeded cluster5 selNginx (3 / 10) false (by decide) hdiv
  have hresp := create_experiment_error_path (freshState cluster5)
    (confNginx safetyDefault) "exp-c3" 0 cluster5
    (.blastRadiusExceeded
      ((cluster5.pods.filter (matchesSelector selNginx)).map Pod.name).length
      cluster5.pods.length)
    rfl hpd
  have hfr : failRec =
      { id := "exp-c3", status := .failed, phase := .inject, started_at := 0,
        completed_at := none,
        steady_state := some (K8sEngine.get_steady_state cluster5 "default"),
        injection_result := none, observations := none,
        error := some (chaosErrorMessage (.blastRadiusExceeded
          ((cluster5.pods.filter (matchesSelector selNginx)).map Pod.name).length
          cluster5.pods.length)) } := by
    unfold failRec failRun
    rw [hresp]
    rfl
  refine ⟨?_, ?_, rfl, ?_⟩
  · rw [hfr]
  · rw [hfr]
  · show failRec.completed_at = none
    rw [hfr]

/-- Claim C3 (amended): a record the run endpoint returns as completed
always has `completed_at` set; the rollback endpoint sets the status to
`rolled_back` but leaves `completed_at` exactly as it was, so the
record it leaves has `completed_at` set only when the experiment had
previously completed. -/
theorem claim_C3_amended :
    (∀ st config experiment_id now st' r,
        create_experiment st config experiment_id now = (st', CreateResponse.ok r) →
        r.status = ExperimentStatus.completed ∧ r.completed_at = some (now + 1)) ∧
    (∀ st r,
        ((rollback_experiment st r).2.1).status = ExperimentStatus.rolled_back ∧
        ((rollback_experiment st r).2.1).completed_at = r.completed_at) := by
  constructor
  · intro st config experiment_id now st' r h
    unfold create_experiment at h
    split at h
    · exact absurd (congrArg Prod.snd h) (by simp)
    · split at h <;> split at h
      all_goals first
        | (have hbad := congrArg Prod.snd h
           simp at hbad
           done)
        | (have hsnd := congrArg Prod.snd h
           simp only [CreateResponse.ok.injEq] at hsnd
           rw [← hsnd]
           exact ⟨rfl, rfl⟩)
  · intro st r
    exact ⟨rfl, rfl⟩

/-- A successful (completing) run against the empty namespace. -/
def okRun : AppState × CreateResponse :=
  create_experiment (freshState emptyCluster) (confNginx safetyDefault) "exp-ok" 0

/-- The record persisted by `okRun`. -/
def okRec : ExperimentRecord := (responseRecord okRun.2).getD default

/-- Witness for the amended C3: the concrete completed run has
`completed_at` set. -/
theorem claim_C3_amended_witness :
    okRun = (okRun.1, CreateResponse.ok okRec) ∧
    okRec.status = ExperimentStatus.completed ∧ okRec.completed_at = some 1 :=
  ⟨rfl,
   (claim_C3_amended.1 (freshState emptyCluster) (confNginx safetyDefault)
      "exp-ok" 0 okRun.1 okRec rfl).1,
   (claim_C3_amended.1 (freshState emptyCluster) (confNginx safetyDefault)
      "exp-ok" 0 okRun.1 okRec rfl).2⟩

/-- The process state right after `POST /emergency-stop` on a fresh
process. -/
def bugState : AppState := (trigger_emergency_stop (freshState emptyCluster)).1

/-- The experiment submitted after the emergency stop endpoint was hit. -/
def bugRun : AppState × CreateResponse :=
  create_experiment bugState (confNginx safetyDefault) "exp-c1" 0

/-- The record persisted by `bugRun`. -/
def bugRec : ExperimentRecord := (responseRecord bugRun.2).getD default

/-- Claim C1 is violated by the code: `POST /emergency-stop` sets the
module-level `main.emergency_stop_event`, but `create_experiment` and
the engines consult the distinct
`safety.guardrails.emergency_stop_manager`, which stays clear, so the
next `POST /api/chaos/experiments` is served 200, runs to completion
and invokes the actuator (an injection result is recorded) instead of
returning 503. -/
theorem claim_C1_code_bug :
    (trigger_emergency_stop (freshState emptyCluster)).2.status =
      "emergency_stop_triggered" ∧
    bugState.emergency_stop_event = true ∧
    bugState.manager_event = false ∧
    bugRun.2 = CreateResponse.ok bugRec ∧
    responseIsOk bugRun.2 = true ∧
    responseInjection bugRun.2 =
      some { action := "pod_delete", pods := [], dry_run := false } :=
  ⟨rfl, rfl, rfl, rfl, rfl, rfl⟩

end ChaosDuck
